import Mathlib

/-!
Verification of the AI tutor feedback pipeline (`ai_tutor.py`).

The development shallowly embeds the source functions:
* `ask_gemini` — the resilient completion client (retry / backoff / timeout loop);
* `collect_longrepr`, `collect_longrepr_from_multiple_reports` — test-failure extraction;
* `get_student_code_block`, `assignment_code`, `get_instruction_block`,
  `get_prompt` — prompt assembly;
* `load_locale` — locale-catalog loading.

Effectful parts are embedded explicitly: the HTTP transport is a function from
the request index to a response; wall-clock time advances only through the
backoff sleeps (requests are instantaneous in the model); file contents are the
values the source would read from disk; Python dictionaries are association
lists in insertion order; a Python exception is an `Except.error`.  Durations
and clock readings (floats in the source) are modelled exactly, over an
arbitrary linearly ordered commutative ring `α` of time values.
-/

/-- Response of the transport: HTTP status code and, when the body is consumed
on status 200, the text parts of the first candidate
(`result['candidates'][0]['content']['parts']`, each part's `text`). -/
structure GeminiResponse where
  status_code : Nat
  parts : List String
deriving DecidableEq, Repr

/-- Observable trace of one `ask_gemini` run: how many requests were sent, the
elapsed time at which each was sent, the backoff sleeps performed in order, the
final elapsed clock, whether the loop exited through the timeout check, and the
returned answer (`none` models Python's `None`). -/
structure AskTrace (α : Type) where
  calls : Nat
  callTimes : List α
  sleeps : List α
  elapsed : α
  timedOut : Bool
  answer : Option String
deriving DecidableEq, Repr

variable {α : Type} [LinearOrderedCommRing α]

/-- Body of the `for attempt in range(max_retry_attempt + 1)` loop of
`ask_gemini`, recursing on the remaining iteration count `fuel`.
`attempt` is the current loop index and the transport is keyed by the number of
requests already sent.  Mirrors the source exactly: the timeout check (`>`)
precedes every attempt; status 200 breaks with the joined parts; status 429
sleeps `retry_delay_sec * 2 ^ attempt` only when `attempt < max_retry_attempt`;
any other status only logs, so the loop continues. -/
def ask_gemini_loop (transport : Nat → GeminiResponse) (retry_delay_sec : α)
    (max_retry_attempt : Nat) (timeout_sec : α) :
    Nat → Nat → AskTrace α → AskTrace α
  | _, 0, st => st
  | attempt, fuel+1, st =>
    if st.elapsed > timeout_sec then
      { st with timedOut := true }
    else
      let resp := transport st.calls
      let st1 : AskTrace α :=
        { st with calls := st.calls + 1, callTimes := st.callTimes ++ [st.elapsed] }
      if resp.status_code = 200 then
        { st1 with answer := some (String.intercalate "\n" resp.parts) }
      else if resp.status_code = 429 then
        if attempt < max_retry_attempt then
          let delay := retry_delay_sec * 2 ^ attempt
          ask_gemini_loop transport retry_delay_sec max_retry_attempt timeout_sec
            (attempt + 1) fuel
            { st1 with sleeps := st1.sleeps ++ [delay], elapsed := st1.elapsed + delay }
        else
          ask_gemini_loop transport retry_delay_sec max_retry_attempt timeout_sec
            (attempt + 1) fuel st1
      else
        ask_gemini_loop transport retry_delay_sec max_retry_attempt timeout_sec
          (attempt + 1) fuel st1

/-- Embedding of `ask_gemini`: runs the attempt loop for
`max_retry_attempt + 1` iterations from the empty trace.  The source defaults
are `retry_delay_sec = 5.0`, `max_retry_attempt = 3`, `timeout_sec = 60`. -/
def ask_gemini (transport : Nat → GeminiResponse) (retry_delay_sec : α)
    (max_retry_attempt : Nat) (timeout_sec : α) : AskTrace α :=
  ask_gemini_loop transport retry_delay_sec max_retry_attempt timeout_sec
    0 (max_retry_attempt + 1) ⟨0, [], [], 0, false, none⟩

/-- Transport that always answers with the given status and no usable body. -/
def constStatus (s : Nat) : Nat → GeminiResponse := fun _ => ⟨s, []⟩

/-- Mock transport of the retry-policy property: 429 for the first `n`
requests, then 200 carrying `parts`. -/
def mock429then200 (n : Nat) (parts : List String) : Nat → GeminiResponse :=
  fun k => if k < n then ⟨429, []⟩ else ⟨200, parts⟩

/-- Sum of the first `n` backoff delays, `d * 2 ^ 0 + ... + d * 2 ^ (n-1)`. -/
def sumDelays (n : Nat) (d : α) : α :=
  ((List.range n).map (fun i => d * 2 ^ i)).sum

/-! ## Test-result extraction (`collect_longrepr`) -/

/-- Value of one attribute of a test record.  In the report JSON an attribute
is either a non-dictionary value (`scalar`, e.g. the outcome string or a node
id) or a dictionary (`obj`); of a dictionary the source only ever tests
membership of the key `longrepr` and reads its string value, so a dictionary
is modelled by its string-valued entries in insertion order. -/
inductive AttrVal where
  | scalar (s : String)
  | obj (fields : List (String × String))
deriving DecidableEq, Repr

/-- First-match lookup in a Python dictionary modelled as an association
list (Python dictionary keys are unique, so first match is the match). -/
def dictLookup (fields : List (String × String)) (k : String) : Option String :=
  (fields.find? (fun kv => kv.1 = k)).map (fun kv => kv.2)

/-- The `longrepr` entry of an attribute value, when the value is a
dictionary containing that key (`isinstance(r[k], dict) and 'longrepr' in r[k]`). -/
def attrLongrepr : AttrVal → Option String
  | AttrVal.scalar _ => none
  | AttrVal.obj fields => dictLookup fields "longrepr"

/-- One record of `data['tests']`.  `outcome` is the string value of the
record's `outcome` key (a scalar, so its own key can never emit an excerpt);
`fields` is the record's remaining keys in their stored (insertion) order,
as iterated by `for k in r`. -/
structure TestRecord where
  outcome : String
  fields : List (String × AttrVal)
deriving DecidableEq, Repr

/-- One parsed report, the list `data['tests']` in stored order. -/
abbrev Report := List TestRecord

/-- The inner loop of `collect_longrepr` for one non-passed record:
`for k in r: if isinstance(r[k], dict) and 'longrepr' in r[k]:
longrepr_list.append(r['outcome'] + ':' + k + ':' + r[k]['longrepr'])`. -/
def record_longreprs (r : TestRecord) : List String :=
  r.fields.foldl
    (fun acc kv =>
      match attrLongrepr kv.2 with
      | some s => acc ++ [r.outcome ++ ":" ++ kv.1 ++ ":" ++ s]
      | none => acc)
    []

/-- Embedding of `collect_longrepr`: walk the records of `data['tests']` and
collect excerpts of every record whose outcome is not `passed`. -/
def collect_longrepr (data : Report) : List String :=
  data.foldl
    (fun acc r => if r.outcome ≠ "passed" then acc ++ record_longreprs r else acc)
    []

/-! ## Locale catalog (`load_locale`) and localized markers -/

/-- A parsed locale resource file: a flat string-to-string mapping in
insertion order, exactly as `json.loads` returns it. -/
abbrev LocaleMap := List (String × String)

/-- The store of locale resource files: which language labels have a resource
under `locale/<label>.json`, and the parsed mapping of each.  `none` models a
missing file. -/
abbrev LocaleStore := String → Option LocaleMap

/-- Failure of `load_locale`: the `assert locale_file.exists()` raising
`AssertionError` when no resource exists for the label. -/
inductive LocaleError where
  | notFound (label : String)
deriving DecidableEq, Repr

/-- Embedding of `load_locale`: assert the resource file exists, then return
the parsed mapping as is.  No key of the mapping is examined here; the seven
recognized keys are looked up only later, at each point of use. -/
def load_locale (store : LocaleStore) (explain_in : String) :
    Except LocaleError LocaleMap :=
  match store explain_in with
  | none => Except.error (LocaleError.notFound explain_in)
  | some m => Except.ok m

/-- Embedding of `get_directive` on a loaded store: looks up the mapping's
`directive` key; a missing key is Python's `KeyError`, modelled as `none`. -/
def get_directive (store : LocaleStore) (explain_in : String) : Option String :=
  match load_locale store explain_in with
  | Except.error _ => none
  | Except.ok m => (dictLookup m "directive").map (fun s => s ++ "\n")

/-- A locale whose seven recognized keys all resolve, as used by the prompt
assembly once `load_locale(explanation_in)[key]` succeeds for each key.
(Named `TutorLocale`: Mathlib already declares a `Locale`.) -/
structure TutorLocale where
  directive : String
  report_header : String
  report_footer : String
  instruction_start : String
  instruction_end : String
  homework_start : String
  homework_end : String
deriving DecidableEq, Repr

/-- Embedding of `get_report_header`. -/
def get_report_header (loc : TutorLocale) : String :=
  "## " ++ loc.report_header ++ "\n"

/-- Embedding of `get_report_footer`. -/
def get_report_footer (loc : TutorLocale) : String :=
  "## " ++ loc.report_footer ++ "\n"

/-- Embedding of `collect_longrepr_from_multiple_reports`, over the parsed
contents of the report files: concatenate each report's excerpts in report
order; then, only when the collected list is non-empty (`if questions:`),
insert the localized report header at position 0 and append the localized
report footer. -/
def collect_longrepr_from_multiple_reports (reports : List Report)
    (loc : TutorLocale) : List String :=
  let questions := reports.foldl (fun acc rep => acc ++ collect_longrepr rep) []
  if questions.isEmpty then questions
  else get_report_header loc :: (questions ++ [get_report_footer loc])

/-! ## Prompt assembly -/

/-- A student source file as the pipeline sees it: its base name
(`f.name`) and its verbatim text (`f.read_text()`). -/
structure StudentFile where
  name : String
  text : String
deriving DecidableEq, Repr

/-- Embedding of `assignment_code`: per file a begin-comment naming the file,
the verbatim text, an end-comment naming the file; files joined with a blank
line (`'\n\n'.join`). -/
def assignment_code (student_files : List StudentFile) : String :=
  String.intercalate "\n\n"
    (student_files.map (fun f =>
      "# begin : " ++ f.name ++ " ======\n" ++ f.text ++ "\n# end : " ++
        f.name ++ " ======\n"))

/-- The student-code block around an already-computed `assignment_code`
result.  The line between the opening marker and the student code is a plain
(non-f) string literal in the source, so the characters
`## \x7bload_locale(explanation_in)['homework_start']\x7d` appear verbatim in
the output and the locale's `homework_start` string is never inserted. -/
def student_code_block_wrap (code : String) (loc : TutorLocale) : String :=
  "\n\n##### Start mutable code block\n" ++
    "## \x7bload_locale(explanation_in)['homework_start']\x7d\n" ++
    code ++ "\n" ++
    "## " ++ loc.homework_end ++ "\n" ++
    "##### End mutable code block\n"

/-- Embedding of `get_student_code_block` exactly as written in the source. -/
def get_student_code_block (student_files : List StudentFile) (loc : TutorLocale) :
    String :=
  student_code_block_wrap (assignment_code student_files) loc

/-- Modelled from the spec: the student-code block as §4.3 describes it, with
the locale's `homework_start` string as the localized start marker.  Kept for
comparison with `get_student_code_block`, which embeds the source. -/
def get_student_code_block_spec (student_files : List StudentFile)
    (loc : TutorLocale) : String :=
  "\n\n##### Start mutable code block\n" ++
    "## " ++ loc.homework_start ++ "\n" ++
    assignment_code student_files ++ "\n" ++
    "## " ++ loc.homework_end ++ "\n" ++
    "##### End mutable code block\n"

/-- Embedding of `get_instruction_block`; `readme` is the verbatim text of
the instructions file (`assignment_instruction(readme_file)`). -/
def get_instruction_block (readme : String) (loc : TutorLocale) : String :=
  "## " ++ loc.instruction_start ++ "\n" ++ readme ++ "\n" ++
    "## " ++ loc.instruction_end ++ "\n"

/-- Embedding of the inner `get_initial_instruction` of `get_prompt`:
`get_directive(language) + '\n' + 'Please generate ...'` when there are failed
test cases, the languge-templated comment request otherwise. -/
def get_initial_instruction (questions : List String) (loc : TutorLocale)
    (language : String) : String :=
  if questions.isEmpty then
    "In " ++ language ++
      ", please comment on the student code given the assignment instruction."
  else
    (loc.directive ++ "\n") ++ "\n" ++
      "Please generate comments mutually exclusive and collectively exhaustive for the following failed test cases."

/-- Embedding of `get_prompt`, over parsed reports, student file contents and
the readme text, with a locale whose keys all resolve for the requested
language: the header list, then the collected excerpts, joined by blank
lines. -/
def get_prompt (reports : List Report) (student_files : List StudentFile)
    (readme : String) (loc : TutorLocale) (explanation_in : String) : String :=
  let pytest_longrepr_list := collect_longrepr_from_multiple_reports reports loc
  String.intercalate "\n\n"
    ([get_initial_instruction pytest_longrepr_list loc explanation_in,
      get_instruction_block readme loc,
      get_student_code_block student_files loc] ++ pytest_longrepr_list)

/-- The state of the loop before attempt `j` of a run in which every request
so far was answered 429 and every backoff sleep was taken. -/
def backoffState (j : Nat) (d : α) : AskTrace α :=
  ⟨j, (List.range j).map (fun i => sumDelays i d),
    (List.range j).map (fun i => d * 2 ^ i), sumDelays j d, false, none⟩

/-! ## Lemmas about extraction -/

/-- The excerpt a record with outcome `oc` emits for the key-value pair `kv`,
when the pair's value is a dictionary carrying `longrepr`. -/
def emitExcerpt (oc : String) (kv : String × AttrVal) : Option String :=
  (attrLongrepr kv.2).map (fun s => oc ++ ":" ++ kv.1 ++ ":" ++ s)

/-- A non-passed record whose detail-carrying keys include a name that is
none of `setup`, `call` and `teardown`. -/
def demoRecord : TestRecord :=
  ⟨"error",
    [("nodeid", AttrVal.scalar "t.py::t"),
      ("custom_phase", AttrVal.obj [("longrepr", "boom")]),
      ("call", AttrVal.obj [("outcome2", "x")]),
      ("teardown", AttrVal.obj [("longrepr", "leak")])]⟩

/-! ## Claims about the locale catalog -/

/-- A locale store with one resource, for `English`, holding only the
`directive` key: six of the seven recognized keys are missing from it. -/
def demoStore : LocaleStore :=
  fun label =>
    if label = "English" then some [("directive", "Explain the failures.")]
    else none

/-- A locale store whose `English` resource lacks the `directive` key. -/
def demoStoreNoDirective : LocaleStore :=
  fun label =>
    if label = "English" then some [("report_header", "Failed tests")]
    else none

/-! ## Claims about the student-code block -/

/-- Concrete locale of the prompt-assembly scenarios. -/
def demoLocale : TutorLocale :=
  ⟨"D", "RH", "RF", "IS", "IE", "HWSTART", "HWEND"⟩

/-- Concrete student files of the prompt-assembly scenarios. -/
def demoFiles : List StudentFile := [⟨"a.py", "x=1"⟩]

/-! ## Claim about list arguments to the memoized reader -/

/-- A Python sequence argument as passed to the pipeline: a mutable list or
a tuple of student files. -/
inductive PyColl (β : Type) where
  | pylist (xs : List β)
  | pytuple (xs : List β)

/-- Python hashability of the two sequence kinds: tuples (of hashable
elements) hash, lists never do. -/
def PyColl.isHashable {β : Type} : PyColl β → Bool
  | PyColl.pylist _ => false
  | PyColl.pytuple _ => true

/-- The elements of either sequence kind. -/
def PyColl.toList {β : Type} : PyColl β → List β
  | PyColl.pylist xs => xs
  | PyColl.pytuple xs => xs

/-- Semantics of calling a `functools.lru_cache`-decorated function: the
cache hashes the argument before the wrapped function runs, so an unhashable
argument raises `TypeError` and the wrapped function is never entered. -/
def lru_cache_call {β γ : Type} (f : List β → γ) (arg : PyColl β) :
    Except String γ :=
  if arg.isHashable then Except.ok (f arg.toList)
  else Except.error "TypeError: unhashable type: 'list'"

/-- `get_student_code_block` as executed: `assignment_code` is
`lru_cache`-decorated, so its argument is hashed first. -/
def get_student_code_block_py (student_files : PyColl StudentFile)
    (loc : TutorLocale) : Except String String :=
  (lru_cache_call assignment_code student_files).map
    (fun code => student_code_block_wrap code loc)

/-- `get_prompt` as executed, threading the possible `TypeError` of the
student-code block. -/
def get_prompt_py (reports : List Report) (student_files : PyColl StudentFile)
    (readme : String) (loc : TutorLocale) (explanation_in : String) :
    Except String String :=
  let pytest_longrepr_list := collect_longrepr_from_multiple_reports reports loc
  (get_student_code_block_py student_files loc).map
    (fun blk =>
      String.intercalate "\n\n"
        ([get_initial_instruction pytest_longrepr_list loc explanation_in,
          get_instruction_block readme loc, blk] ++ pytest_longrepr_list))

/-- `gemini_qna` as executed: build the prompt, then — only if that raised
nothing — query the client.  The second component counts the requests sent. -/
def gemini_qna_py (transport : Nat → GeminiResponse) (d : α) (maxR : Nat)
    (t : α) (reports : List Report) (student_files : PyColl StudentFile)
    (readme : String) (loc : TutorLocale) (explanation_in : String) :
    Except String (Option String) × Nat :=
  match get_prompt_py reports student_files readme loc explanation_in with
  | Except.error e => (Except.error e, 0)
  | Except.ok _ =>
      (Except.ok (ask_gemini transport d maxR t).answer,
        (ask_gemini transport d maxR t).calls)

/-! ## Sanity evaluations, lemmas and claim theorems -/

example :
    (ask_gemini (constStatus 500) (5:ℤ) 3 60) =
      ⟨4, [0, 0, 0, 0], [], 0, false, none⟩ := by decide

example :
    (ask_gemini (constStatus 429) (5:ℤ) 3 60) =
      ⟨4, [0, 5, 15, 35], [5, 10, 20], 35, false, none⟩ := by decide

example :
    (ask_gemini (mock429then200 2 ["hi", "yo"]) (5:ℤ) 3 60) =
      ⟨3, [0, 5, 15], [5, 10], 15, false, some "hi\nyo"⟩ := by decide

example :
    (ask_gemini (constStatus 429) (2:ℤ) 3 3) =
      ⟨2, [0, 2], [2, 4], 6, true, none⟩ := by decide

example :
    collect_longrepr
        [⟨"failed", [("call", AttrVal.obj [("longrepr", "AssertionError: 1 != 2")])]⟩] =
      ["failed:call:AssertionError: 1 != 2"] := by decide

/-! ## Lemmas about the retry loop -/

lemma sumDelays_succ (n : Nat) (d : α) :
    sumDelays (n + 1) d = sumDelays n d + d * 2 ^ n := by
  simp [sumDelays, List.range_succ]

lemma sumDelays_mono {m n : Nat} {d : α} (hmn : m ≤ n) (hd : 0 ≤ d) :
    sumDelays m d ≤ sumDelays n d := by
  induction n with
  | zero => simp_all
  | succ n ih =>
    rcases Nat.eq_or_lt_of_le hmn with h | h
    · subst h; exact le_refl _
    · calc sumDelays m d ≤ sumDelays n d := ih (Nat.lt_succ_iff.mp h)
        _ ≤ sumDelays (n + 1) d := by
            rw [sumDelays_succ]
            have : (0:α) ≤ d * 2 ^ n := mul_nonneg hd (by positivity)
            linarith

/-- Running the loop against a transport that always returns a status other
than 200 and 429 consumes all remaining attempts, sending one request per
iteration at an unchanged clock, with no sleep and no answer. -/
lemma ask_gemini_loop_other (transport : Nat → GeminiResponse) {s : Nat}
    (parts : List String) (hT : ∀ k, transport k = ⟨s, parts⟩)
    (hs200 : s ≠ 200) (hs429 : s ≠ 429) (d t : α) (maxR : Nat) :
    ∀ (fuel attempt : Nat) (st : AskTrace α), st.elapsed ≤ t →
      ask_gemini_loop transport d maxR t attempt fuel st =
        { st with calls := st.calls + fuel,
                  callTimes := st.callTimes ++ List.replicate fuel st.elapsed } := by
  intro fuel
  induction fuel with
  | zero => intro attempt st h; simp [ask_gemini_loop]
  | succ n ih =>
    intro attempt st h
    rw [ask_gemini_loop]
    rw [if_neg (not_lt.mpr h)]
    simp only [hT, hs200, hs429, if_false, ite_false]
    rw [ih]
    · simp [List.replicate_succ]
      omega
    · exact h

/-- After the backoff sleep of attempt `j`, the loop state is the backoff
state of attempt `j + 1`. -/
lemma backoffState_step (j : Nat) (d : α) :
    ({ backoffState j d with
        calls := j + 1,
        callTimes := ((List.range j).map (fun i => sumDelays i d)) ++ [sumDelays j d],
        sleeps := ((List.range j).map (fun i => d * 2 ^ i)) ++ [d * 2 ^ j],
        elapsed := sumDelays j d + d * 2 ^ j } : AskTrace α) =
      backoffState (j + 1) d := by
  simp [backoffState, List.range_succ, sumDelays_succ]

/-- Running the loop against `mock429then200 N parts` from the backoff state
of attempt `j ≤ N`: every further 429 sleeps and proceeds, and attempt `N`
gets the 200 answer. -/
lemma ask_gemini_loop_mock (N : Nat) (parts : List String) (d t : α)
    (maxR : Nat) (hN : N < maxR) (hd : 0 ≤ d) (ht : sumDelays N d ≤ t) :
    ∀ (fuel j : Nat), j + fuel = maxR + 1 → j ≤ N →
      ask_gemini_loop (mock429then200 N parts) d maxR t j fuel (backoffState j d) =
        { backoffState (N + 1) d with
            sleeps := (List.range N).map (fun i => d * 2 ^ i),
            elapsed := sumDelays N d,
            answer := some (String.intercalate "\n" parts) } := by
  intro fuel
  induction fuel with
  | zero => intro j hj hjN; omega
  | succ n ih =>
    intro j hj hjN
    have he : (backoffState j d : AskTrace α).elapsed ≤ t :=
      le_trans (sumDelays_mono hjN hd) ht
    rw [ask_gemini_loop, if_neg (not_lt.mpr he)]
    by_cases hjlt : j < N
    · have hresp : mock429then200 N parts (backoffState j d : AskTrace α).calls =
          ⟨429, []⟩ := by simp [mock429then200, backoffState, hjlt]
      simp only [hresp]
      norm_num
      rw [if_pos (lt_trans hjlt hN)]
      have hstep := backoffState_step (α := α) j d
      simp only [backoffState] at hstep ⊢
      rw [hstep]
      exact ih (j + 1) (by omega) (by omega)
    · have hje : j = N := Nat.le_antisymm hjN (Nat.not_lt.mp hjlt)
      subst hje
      have hresp : mock429then200 j parts (backoffState j d : AskTrace α).calls =
          ⟨200, parts⟩ := by simp [mock429then200, backoffState]
      simp only [hresp]
      norm_num
      simp [backoffState, List.range_succ]

/-- Running the loop against an always-429 transport from the backoff state
of attempt `j ≤ maxR`: every attempt up to `maxR - 1` sleeps, attempt `maxR`
does not, and the loop exits with no answer after `maxR + 1` calls. -/
lemma ask_gemini_loop_all429 (transport : Nat → GeminiResponse)
    (hT : ∀ k, transport k = ⟨429, []⟩) (d t : α)
    (maxR : Nat) (hd : 0 ≤ d) (ht : sumDelays maxR d ≤ t) :
    ∀ (fuel j : Nat), j + fuel = maxR + 1 → j ≤ maxR →
      ask_gemini_loop transport d maxR t j fuel (backoffState j d) =
        { backoffState (maxR + 1) d with
            sleeps := (List.range maxR).map (fun i => d * 2 ^ i),
            elapsed := sumDelays maxR d } := by
  intro fuel
  induction fuel with
  | zero => intro j hj hjN; omega
  | succ n ih =>
    intro j hj hjN
    have he : (backoffState j d : AskTrace α).elapsed ≤ t :=
      le_trans (sumDelays_mono hjN hd) ht
    rw [ask_gemini_loop, if_neg (not_lt.mpr he)]
    simp only [hT]
    norm_num
    by_cases hjlt : j < maxR
    · rw [if_pos hjlt]
      have hstep := backoffState_step (α := α) j d
      simp only [backoffState] at hstep ⊢
      rw [hstep]
      exact ih (j + 1) (by omega) (by omega)
    · have hje : j = maxR := Nat.le_antisymm hjN (Nat.not_lt.mp hjlt)
      subst hje
      rw [if_neg hjlt]
      have hn : n = 0 := by omega
      subst hn
      rw [ask_gemini_loop]
      simp [backoffState, List.range_succ]

/-- Invariant of the loop: starting from a state with no answer and no
timeout flag whose recorded call times are all within the deadline, every
call time of the final state is within the deadline, and a run that set the
timeout flag has no answer. -/
lemma ask_gemini_loop_deadline (transport : Nat → GeminiResponse)
    (d t : α) (maxR : Nat) :
    ∀ (fuel attempt : Nat) (st : AskTrace α),
      (∀ q ∈ st.callTimes, q ≤ t) → st.answer = none → st.timedOut = false →
      (∀ q ∈ (ask_gemini_loop transport d maxR t attempt fuel st).callTimes, q ≤ t) ∧
        ((ask_gemini_loop transport d maxR t attempt fuel st).timedOut = true →
          (ask_gemini_loop transport d maxR t attempt fuel st).answer = none) := by
  intro fuel
  induction fuel with
  | zero =>
    intro attempt st hct hans hto
    rw [ask_gemini_loop]
    exact ⟨hct, fun _ => hans⟩
  | succ n ih =>
    intro attempt st hct hans hto
    rw [ask_gemini_loop]
    by_cases htime : st.elapsed > t
    · rw [if_pos htime]
      exact ⟨hct, fun _ => hans⟩
    · rw [if_neg htime]
      have hle : st.elapsed ≤ t := not_lt.mp htime
      have hct1 : ∀ q ∈ st.callTimes ++ [st.elapsed], q ≤ t := by
        intro q hq
        rcases List.mem_append.mp hq with h | h
        · exact hct q h
        · rw [List.mem_singleton.mp h]; exact hle
      by_cases h200 : (transport st.calls).status_code = 200
      · rw [if_pos h200]
        exact ⟨hct1, fun h => by simp_all⟩
      · rw [if_neg h200]
        by_cases h429 : (transport st.calls).status_code = 429
        · rw [if_pos h429]
          by_cases hatt : attempt < maxR
          · rw [if_pos hatt]
            exact ih (attempt + 1) _ hct1 hans hto
          · rw [if_neg hatt]
            exact ih (attempt + 1) _ hct1 hans hto
        · rw [if_neg h429]
          exact ih (attempt + 1) _ hct1 hans hto

/-! ## Claims about the completion client -/

/-- Claim C1, counterexample: with a transport whose first (and every)
response has HTTP status 500 and the default configuration
(`retry_delay_sec = 5`, `max_retry_attempt = 3`, `timeout_sec = 60`),
`ask_gemini` sends four requests, not exactly one, though it does not sleep
and does return the absence-of-answer value. -/
theorem ask_gemini_http500_four_calls :
    (ask_gemini (constStatus 500) (5:ℤ) 3 60).calls = 4 ∧
      (ask_gemini (constStatus 500) (5:ℤ) 3 60).calls ≠ 1 ∧
      (ask_gemini (constStatus 500) (5:ℤ) 3 60).sleeps = [] ∧
      (ask_gemini (constStatus 500) (5:ℤ) 3 60).answer = none := by
  decide

/-- Claim C1 as amended: on a status that is neither 200 nor 429 the attempt
loop does not stop; the attempt is consumed with no backoff sleep and the
next attempt proceeds immediately.  With a transport that always returns such
a status, `ask_gemini` sends `max_retry_attempt + 1` requests, all at elapsed
time zero, performs no sleep, and returns the absence-of-answer value. -/
theorem ask_gemini_other_status_retries_without_sleep
    (transport : Nat → GeminiResponse) (s : Nat) (parts : List String)
    (d t : α) (maxR : Nat) (hT : ∀ k, transport k = ⟨s, parts⟩)
    (hs200 : s ≠ 200) (hs429 : s ≠ 429) (ht : 0 ≤ t) :
    ask_gemini transport d maxR t =
      ⟨maxR + 1, List.replicate (maxR + 1) 0, [], 0, false, none⟩ := by
  rw [ask_gemini, ask_gemini_loop_other transport parts hT hs200 hs429 d t maxR
    (maxR + 1) 0 ⟨0, [], [], 0, false, none⟩ ht]
  simp

/-- Witness for the amended claim C1 at the concrete input of the
counterexample's scenario. -/
theorem ask_gemini_other_status_retries_without_sleep_witness :
    ask_gemini (constStatus 500) (5:ℤ) 3 60 =
      ⟨4, List.replicate 4 0, [], 0, false, none⟩ :=
  ask_gemini_other_status_retries_without_sleep (constStatus 500) 500 [] 5 60 3
    (fun _ => rfl) (by decide) (by decide) (by decide)

/-- Claim C3: for `N < max_retry_attempt`, a transport answering 429 to the
first `N` requests and 200 with `parts` to request `N + 1` makes `ask_gemini`
send exactly `N + 1` requests, sleep `retry_delay_sec * 2 ^ 0, ...,
retry_delay_sec * 2 ^ (N - 1)` between consecutive requests, and return the
answer joined from the 200 response's parts — provided the delay is
non-negative and the total backoff stays within the deadline. -/
theorem ask_gemini_retry_policy (N : Nat) (parts : List String) (d t : α)
    (maxR : Nat) (hN : N < maxR) (hd : 0 ≤ d) (ht : sumDelays N d ≤ t) :
    ask_gemini (mock429then200 N parts) d maxR t =
      ⟨N + 1, (List.range (N + 1)).map (fun i => sumDelays i d),
        (List.range N).map (fun i => d * 2 ^ i), sumDelays N d, false,
        some (String.intercalate "\n" parts)⟩ := by
  have h0 : (backoffState 0 d : AskTrace α) = ⟨0, [], [], 0, false, none⟩ := by
    simp [backoffState, sumDelays]
  rw [ask_gemini, ← h0,
    ask_gemini_loop_mock N parts d t maxR hN hd ht (maxR + 1) 0 (by omega)
      (Nat.zero_le N)]
  simp [backoffState]

/-- Witness for claim C3: two 429 responses then a 200, with the source's
default configuration. -/
theorem ask_gemini_retry_policy_witness :
    ask_gemini (mock429then200 2 ["OK"]) (5:ℤ) 3 60 =
      ⟨3, [0, 5, 15], [5, 10], 15, false, some "OK"⟩ := by
  have h := ask_gemini_retry_policy 2 ["OK"] (5:ℤ) 60 3 (by decide) (by decide)
    (by decide)
  exact h.trans (by decide)

/-- Claim C4: for every transport and configuration, every request of an
`ask_gemini` run is sent at an elapsed time within `timeout_sec` — the
deadline check before each attempt stops the loop regardless of remaining
retry budget — and a run that exited through that check returns the
absence-of-answer value. -/
theorem ask_gemini_deadline (transport : Nat → GeminiResponse) (d t : α)
    (maxR : Nat) :
    (∀ q ∈ (ask_gemini transport d maxR t).callTimes, q ≤ t) ∧
      ((ask_gemini transport d maxR t).timedOut = true →
        (ask_gemini transport d maxR t).answer = none) := by
  exact ask_gemini_loop_deadline transport d t maxR (maxR + 1) 0
    ⟨0, [], [], 0, false, none⟩ (by simp) rfl rfl

/-- Witness for claim C4: with `timeout_sec = 3` and `retry_delay_sec = 2`
the second backoff sleep crosses the deadline, the loop times out, and the
recorded call times 0 and 2 are both within the deadline. -/
theorem ask_gemini_deadline_witness :
    ((ask_gemini (constStatus 429) (2:ℤ) 3 3).timedOut = true ∧
        (ask_gemini (constStatus 429) (2:ℤ) 3 3).answer = none) ∧
      ∀ q ∈ (ask_gemini (constStatus 429) (2:ℤ) 3 3).callTimes, q ≤ 3 := by
  refine ⟨⟨by decide, ?_⟩, (ask_gemini_deadline (constStatus 429) (2:ℤ) 3 3).1⟩
  exact (ask_gemini_deadline (constStatus 429) (2:ℤ) 3 3).2 (by decide)

/-- Claim C5: with a transport that always answers 429 and
`max_retry_attempt = 3`, `ask_gemini` sends exactly four requests — sleeping
after the first three, not after the last — and returns the explicit
absence-of-answer value rather than raising, provided the delay is
non-negative and the total backoff stays within the deadline. -/
theorem ask_gemini_exhaustion (transport : Nat → GeminiResponse)
    (hT : ∀ k, transport k = ⟨429, []⟩) (d t : α) (hd : 0 ≤ d)
    (ht : sumDelays 3 d ≤ t) :
    (ask_gemini transport d 3 t).calls = 4 ∧
      (ask_gemini transport d 3 t).answer = none ∧
      (ask_gemini transport d 3 t).sleeps =
        (List.range 3).map (fun i => d * 2 ^ i) := by
  have h0 : (backoffState 0 d : AskTrace α) = ⟨0, [], [], 0, false, none⟩ := by
    simp [backoffState, sumDelays]
  rw [ask_gemini, ← h0,
    ask_gemini_loop_all429 transport hT d t 3 hd ht 4 0 (by omega) (by omega)]
  simp [backoffState]

/-- Witness for claim C5: the source's default delay and deadline. -/
theorem ask_gemini_exhaustion_witness :
    (ask_gemini (constStatus 429) (5:ℤ) 3 60).calls = 4 ∧
      (ask_gemini (constStatus 429) (5:ℤ) 3 60).answer = none ∧
      (ask_gemini (constStatus 429) (5:ℤ) 3 60).sleeps =
        (List.range 3).map (fun i => (5:ℤ) * 2 ^ i) :=
  ask_gemini_exhaustion (constStatus 429) (fun _ => rfl) (5:ℤ) 60 (by decide)
    (by decide)

lemma record_longreprs_go (oc : String) :
    ∀ (l : List (String × AttrVal)) (init : List String),
      l.foldl
          (fun acc kv =>
            match attrLongrepr kv.2 with
            | some s => acc ++ [oc ++ ":" ++ kv.1 ++ ":" ++ s]
            | none => acc)
          init =
        init ++ l.filterMap (emitExcerpt oc)
  | [], init => by simp
  | kv :: l, init => by
    cases h : attrLongrepr kv.2 with
    | none =>
      simp only [List.foldl_cons, h, List.filterMap_cons, emitExcerpt,
        Option.map_none', record_longreprs_go oc l init]
    | some s =>
      simp [List.foldl_cons, h, List.filterMap_cons, emitExcerpt,
        record_longreprs_go oc l]

/-- The inner loop emits exactly the detail-carrying keys, in stored order. -/
lemma record_longreprs_eq (r : TestRecord) :
    record_longreprs r = r.fields.filterMap (emitExcerpt r.outcome) := by
  rw [record_longreprs, record_longreprs_go r.outcome r.fields []]
  simp

lemma collect_longrepr_go :
    ∀ (data : Report) (init : List String),
      data.foldl
          (fun acc r =>
            if r.outcome ≠ "passed" then acc ++ record_longreprs r else acc)
          init =
        init ++
          (data.filter (fun r => r.outcome != "passed")).flatMap record_longreprs
  | [], init => by simp
  | r :: data, init => by
    by_cases h : r.outcome = "passed"
    · rw [List.foldl_cons, if_neg (fun hc => hc h),
        List.filter_cons_of_neg (by simp [h]),
        collect_longrepr_go data init]
    · rw [List.foldl_cons, if_pos h,
        List.filter_cons_of_pos (by simp [h]),
        collect_longrepr_go data (init ++ record_longreprs r),
        List.flatMap_cons, List.append_assoc]

/-- `collect_longrepr` is the per-record extraction over the non-passed
records, in stored order. -/
lemma collect_longrepr_eq (data : Report) :
    collect_longrepr data =
      (data.filter (fun r => r.outcome != "passed")).flatMap
        (fun r => r.fields.filterMap (emitExcerpt r.outcome)) := by
  rw [collect_longrepr, collect_longrepr_go data []]
  simp only [List.nil_append]
  exact List.flatMap_congr (fun r _ => record_longreprs_eq r)

lemma filterMap_emit_eq_map_filter (oc : String) :
    ∀ l : List (String × AttrVal),
      l.filterMap (emitExcerpt oc) =
        (l.filter (fun kv => (attrLongrepr kv.2).isSome)).map
          (fun kv => oc ++ ":" ++ kv.1 ++ ":" ++ (attrLongrepr kv.2).getD "")
  | [] => by simp
  | kv :: l => by
    cases h : attrLongrepr kv.2 with
    | none =>
      simp [List.filterMap_cons, List.filter_cons, h, emitExcerpt,
        filterMap_emit_eq_map_filter oc l]
    | some s =>
      simp [List.filterMap_cons, List.filter_cons, h, emitExcerpt,
        filterMap_emit_eq_map_filter oc l]

/-! ## Claims about extraction -/

/-- Claim C7: `collect_longrepr` emits no excerpt for a record whose outcome
is `passed`, and emits exactly one excerpt per (non-passed record,
detail-carrying key) pair, formatted `outcome:key:detail`, preserving the
stored order of records and, within a record, of keys; an empty report
yields the empty sequence. -/
theorem collect_longrepr_per_pair :
    (∀ data : Report,
        collect_longrepr data =
          (data.filter (fun r => r.outcome != "passed")).flatMap
            (fun r => r.fields.filterMap
              (fun kv => (attrLongrepr kv.2).map
                (fun s => r.outcome ++ ":" ++ kv.1 ++ ":" ++ s)))) ∧
      collect_longrepr ([] : Report) = [] := by
  exact ⟨fun data => collect_longrepr_eq data, rfl⟩

/-- Claim C10: for a non-passed record, `collect_longrepr` emits one excerpt
for every key of the record whose value is a dictionary containing
`longrepr` — whatever the key's name, not only `setup`/`call`/`teardown` —
and the record's excerpts appear in the iteration (insertion) order of its
keys. -/
theorem collect_longrepr_any_key :
    (∀ r : TestRecord, r.outcome ≠ "passed" →
        collect_longrepr [r] =
          (r.fields.filter (fun kv => (attrLongrepr kv.2).isSome)).map
            (fun kv => r.outcome ++ ":" ++ kv.1 ++ ":" ++
              (attrLongrepr kv.2).getD "")) ∧
      ∀ (data : Report) (r : TestRecord), r ∈ data → r.outcome ≠ "passed" →
        ∀ kv ∈ r.fields, ∀ s, attrLongrepr kv.2 = some s →
          (r.outcome ++ ":" ++ kv.1 ++ ":" ++ s) ∈ collect_longrepr data := by
  constructor
  · intro r hr
    rw [collect_longrepr_eq]
    simp only [List.filter_cons, List.filter_nil]
    rw [if_pos (by simpa using hr)]
    simp [filterMap_emit_eq_map_filter]
  · intro data r hrd hr kv hkv s hs
    rw [collect_longrepr_eq]
    refine List.mem_flatMap.mpr ⟨r, List.mem_filter.mpr ⟨hrd, by simpa using hr⟩, ?_⟩
    exact List.mem_filterMap.mpr ⟨kv, hkv, by simp [emitExcerpt, hs]⟩

/-- Witness for claim C10 at a record whose detail-carrying keys include a
name that is none of `setup`, `call`, `teardown`. -/
theorem collect_longrepr_any_key_witness :
    collect_longrepr [demoRecord] =
        ["error:custom_phase:boom", "error:teardown:leak"] ∧
      "error:custom_phase:boom" ∈ collect_longrepr [demoRecord] := by
  constructor
  · exact ((collect_longrepr_any_key.1 demoRecord (by decide)).trans (by decide))
  · exact collect_longrepr_any_key.2 [demoRecord] demoRecord (by decide)
      (by decide) ("custom_phase", AttrVal.obj [("longrepr", "boom")])
      (by decide) "boom" (by decide)

/-- Claim C8: `collect_longrepr_from_multiple_reports` returns the empty
sequence for an empty report list and whenever no report contributes an
excerpt (no header or footer leaks); when the concatenated per-report
excerpts are non-empty it returns exactly them, in report order, with one
localized report-header line prepended and one localized report-footer line
appended. -/
theorem collect_longrepr_reports_header_footer :
    (∀ loc : TutorLocale, collect_longrepr_from_multiple_reports [] loc = []) ∧
      (∀ (reports : List Report) (loc : TutorLocale),
        (∀ rep ∈ reports, collect_longrepr rep = []) →
          collect_longrepr_from_multiple_reports reports loc = []) ∧
      ∀ (reports : List Report) (loc : TutorLocale),
        reports.flatMap collect_longrepr ≠ [] →
          collect_longrepr_from_multiple_reports reports loc =
            get_report_header loc ::
              (reports.flatMap collect_longrepr ++ [get_report_footer loc]) := by
  have hgo : ∀ (reports : List Report) (init : List String),
      reports.foldl (fun acc rep => acc ++ collect_longrepr rep) init =
        init ++ reports.flatMap collect_longrepr := by
    intro reports
    induction reports with
    | nil => intro init; simp
    | cons rep reports ih => intro init; simp [ih]
  refine ⟨fun loc => rfl, ?_, ?_⟩
  · intro reports loc hempty
    rw [collect_longrepr_from_multiple_reports]
    have : reports.flatMap collect_longrepr = [] := by
      simp only [List.flatMap_eq_nil_iff]
      exact hempty
    simp [hgo, this]
  · intro reports loc hne
    rw [collect_longrepr_from_multiple_reports]
    simp only [hgo, List.nil_append]
    rw [if_neg (by simpa using hne)]

/-- Witness for claim C8: one failing record with a `call` detail, and a
concrete locale. -/
theorem collect_longrepr_reports_header_footer_witness :
    collect_longrepr_from_multiple_reports
        [[⟨"failed", [("call", AttrVal.obj [("longrepr", "AssertionError")])]⟩], []]
        ⟨"D", "Failed tests", "End of failures", "IS", "IE", "HS", "HE"⟩ =
        ["## Failed tests\n", "failed:call:AssertionError",
          "## End of failures\n"] ∧
      collect_longrepr_from_multiple_reports [[], []]
        ⟨"D", "Failed tests", "End of failures", "IS", "IE", "HS", "HE"⟩ = [] := by
  constructor
  · exact (collect_longrepr_reports_header_footer.2.2 _ _ (by decide)).trans
      (by decide)
  · exact collect_longrepr_reports_header_footer.2.1 [[], []] _ (by decide)

example :
    get_student_code_block [⟨"a.py", "x=1"⟩]
        ⟨"D", "RH", "RF", "IS", "IE", "HWSTART", "HWEND"⟩ =
      "\n\n##### Start mutable code block\n## \x7bload_locale(explanation_in)['homework_start']\x7d\n# begin : a.py ======\nx=1\n# end : a.py ======\n\n## HWEND\n##### End mutable code block\n" := by
  rfl

/-- Claim C6, counterexample: loading a locale resource that misses six of
the seven recognized keys (here everything but `directive`) does not fail —
`load_locale` returns the mapping unchanged — so catalog loading does not
fail fast on a missing recognized key. -/
theorem load_locale_missing_key_loads :
    load_locale demoStore "English" =
        Except.ok [("directive", "Explain the failures.")] ∧
      dictLookup [("directive", "Explain the failures.")] "report_header" =
        none := by
  exact ⟨rfl, rfl⟩

/-- Claim C6 as amended: `load_locale` fails with a not-found error exactly
when no resource exists for the label; it performs no validation of the seven
recognized keys, returning any parsed mapping unchanged, and a missing
recognized key surfaces only later, at the point of lookup (here
`get_directive` on a mapping without `directive`). -/
theorem load_locale_not_found_only (store : LocaleStore) (label : String) :
    (store label = none →
        load_locale store label = Except.error (LocaleError.notFound label)) ∧
      (∀ m, store label = some m → load_locale store label = Except.ok m) ∧
      ∀ m, store label = some m → dictLookup m "directive" = none →
        get_directive store label = none := by
  refine ⟨fun h => ?_, fun m h => ?_, fun m h hd => ?_⟩
  · simp [load_locale, h]
  · simp [load_locale, h]
  · simp [get_directive, load_locale, h, hd]

/-- Witness for the amended claim C6: a label with no resource fails with
not-found; a label whose resource misses recognized keys loads, and the
missing `directive` key surfaces as an absent lookup in `get_directive`. -/
theorem load_locale_not_found_only_witness :
    load_locale demoStore "French" =
        Except.error (LocaleError.notFound "French") ∧
      load_locale demoStoreNoDirective "English" =
        Except.ok [("report_header", "Failed tests")] ∧
      get_directive demoStoreNoDirective "English" = none :=
  ⟨(load_locale_not_found_only demoStore "French").1 rfl,
    ((load_locale_not_found_only demoStoreNoDirective "English").2.1 _ rfl),
    ((load_locale_not_found_only demoStoreNoDirective "English").2.2 _ rfl rfl)⟩

/-- Claim C2, evaluated at a concrete input: the source's student-code block
carries the verbatim characters
`## \x7bload_locale(explanation_in)['homework_start']\x7d` where the claim
requires the locale's `homework_start` string (`HWSTART` here), because the
line lacks the `f` prefix of the neighbouring f-strings; apart from the start
marker the block is as claimed, as the spec-modelled block shows. -/
theorem get_student_code_block_literal_marker :
    get_student_code_block demoFiles demoLocale =
        "\n\n##### Start mutable code block\n## \x7bload_locale(explanation_in)['homework_start']\x7d\n# begin : a.py ======\nx=1\n# end : a.py ======\n\n## HWEND\n##### End mutable code block\n" ∧
      get_student_code_block_spec demoFiles demoLocale =
        "\n\n##### Start mutable code block\n## HWSTART\n# begin : a.py ======\nx=1\n# end : a.py ======\n\n## HWEND\n##### End mutable code block\n" ∧
      get_student_code_block demoFiles demoLocale ≠
        get_student_code_block_spec demoFiles demoLocale := by
  refine ⟨rfl, rfl, ?_⟩
  decide

/-- Claim C9: handing the pipeline a mutable list of student files makes the
memoized `assignment_code` raise `TypeError` (unhashable argument) while the
student-code block is assembled, before any request is sent (zero calls);
with a hashable tuple the pipeline completes and queries the client. -/
theorem gemini_qna_list_unhashable (transport : Nat → GeminiResponse)
    (d t : α) (maxR : Nat) (reports : List Report) (fs : List StudentFile)
    (readme : String) (loc : TutorLocale) (lang : String) :
    gemini_qna_py transport d maxR t reports (PyColl.pylist fs) readme loc
        lang =
        (Except.error "TypeError: unhashable type: 'list'", 0) ∧
      gemini_qna_py transport d maxR t reports (PyColl.pytuple fs) readme loc
        lang =
        (Except.ok (ask_gemini transport d maxR t).answer,
          (ask_gemini transport d maxR t).calls) := by
  exact ⟨rfl, rfl⟩
